import Mathlib

/-!
Shallow embedding of the core game engine of the socha-client-rust-2021
repository (a Blokus-like game for the Software-Challenge 2021 season).

Every definition mirrors one item of the Rust source under src/src/game:
vec2.rs, rotation.rs, corner.rs, team.rs, color.rs, field.rs, player.rs,
piece_shape.rs, board.rs, piece.rs, move.rs and game_state.rs.

Rust integers (i32/u32) are modelled as Int/Nat; none of the verified
operations comes near the 32-bit overflow boundary.  `HashSet<PieceShape>`
is modelled as a `List PieceShape` (the list order standing in for the
unspecified iteration order of the hash set, `remove` being `List.erase`),
`HashMap<Color, bool>` as a function `Color → Option Bool`, and
`SCResult<()>` as the inductive `SCResult` whose error constructors stand
for the distinct error messages of the source.  Functions that panic in
Rust (indexing an empty colour queue, fetching shapes of colour `none`)
are given harmless junk values on those inputs; theorems that depend on
such paths carry well-formedness hypotheses ruling them out.  Checks that
the source gates behind `#[cfg(debug_assertions)]` are modelled as being
active (the debug build, which is also the build the source's tests use).
-/

/-- Vec2 models `Vec2` from vec2.rs: a 2D integer vector. -/
structure Vec2 where
  x : Int
  y : Int
deriving DecidableEq

instance : Neg Vec2 := ⟨fun v => ⟨-v.x, -v.y⟩⟩

instance : Add Vec2 := ⟨fun a b => ⟨a.x + b.x, a.y + b.y⟩⟩

instance : Sub Vec2 := ⟨fun a b => ⟨a.x - b.x, a.y - b.y⟩⟩

/-- Vec2.both models `Vec2::both`. -/
def Vec2.both (value : Int) : Vec2 := ⟨value, value⟩

/-- Vec2.zero models `Vec2::zero`. -/
def Vec2.zero : Vec2 := ⟨0, 0⟩

/-- Vec2.turn_right models `Vec2::turn_right`: (x, y) ↦ (-y, x). -/
def Vec2.turn_right (v : Vec2) : Vec2 := ⟨-v.y, v.x⟩

/-- Vec2.turn_left models `Vec2::turn_left`: (x, y) ↦ (y, -x). -/
def Vec2.turn_left (v : Vec2) : Vec2 := ⟨v.y, -v.x⟩

/-- Vec2.flip models `Vec2::flip`: (x, y) ↦ (-x, y). -/
def Vec2.flip (v : Vec2) : Vec2 := ⟨-v.x, v.y⟩

/-- Vec2.min models `Vec2::min` (componentwise). -/
def Vec2.min (a b : Vec2) : Vec2 := ⟨Min.min a.x b.x, Min.min a.y b.y⟩

/-- Vec2.max models `Vec2::max` (componentwise). -/
def Vec2.max (a b : Vec2) : Vec2 := ⟨Max.max a.x b.x, Max.max a.y b.y⟩

/-- rangeTo models the `IntoIterator` instance of `Vec2` (`Vec2Iterator`):
for a target with nonnegative components it yields all vectors of the
inclusive rectangle from (0,0) to the target in row-major order
(x varying fastest). -/
def rangeTo (t : Vec2) : List Vec2 :=
  (List.range (t.y.toNat + 1)).flatMap fun (j : Nat) =>
    (List.range (t.x.toNat + 1)).map fun (i : Nat) => ⟨(i : Int), (j : Int)⟩

/-- Rotation models `Rotation` from rotation.rs. -/
inductive Rotation where
  | None
  | Right
  | Mirror
  | Left
deriving DecidableEq

/-- ROTATIONS models the constant `ROTATIONS` (note the source order:
none, left, right, mirror). -/
def ROTATIONS : List Rotation := [.None, .Left, .Right, .Mirror]

/-- Corner models `Corner` from corner.rs. -/
inductive Corner where
  | TopLeft
  | TopRight
  | BottomLeft
  | BottomRight
deriving DecidableEq

/-- CORNERS models the constant `CORNERS`. -/
def CORNERS : List Corner := [.TopLeft, .TopRight, .BottomLeft, .BottomRight]

/-- Team models `Team` from team.rs. -/
inductive Team where
  | None
  | One
  | Two
deriving DecidableEq

/-- Color models `Color` from color.rs. -/
inductive Color where
  | None
  | Blue
  | Yellow
  | Red
  | Green
deriving DecidableEq

/-- Color.team models `Color::team`. -/
def Color.team : Color → Team
  | .Red => .One
  | .Blue => .One
  | .Yellow => .Two
  | .Green => .Two
  | .None => .None

/-- GameField models `Field` from field.rs (renamed: `Field` collides
with Mathlib's algebraic `Field`). -/
structure GameField where
  position : Vec2
  content : Color
deriving DecidableEq

/-- Player models `Player` from player.rs. -/
structure Player where
  team : Team
  display_name : String
deriving DecidableEq

/-- CoordinateSet models the 25-bit mask `CoordinateSet` from
piece_shape.rs (bit y*5+x set iff the cell (x, y) of the 5x5 window is
occupied). -/
structure CoordinateSet where
  bits : Nat
deriving DecidableEq

/-- CoordinateSet.index_of models `CoordinateSet::index_of`. -/
def CoordinateSet.index_of (coordinates : Vec2) : Nat :=
  (coordinates.y * 5 + coordinates.x).toNat

/-- CoordinateSet.insert models `CoordinateSet::insert`. -/
def CoordinateSet.insert (s : CoordinateSet) (coordinates : Vec2) : CoordinateSet :=
  ⟨s.bits ||| (1 <<< CoordinateSet.index_of coordinates)⟩

/-- CoordinateSet.contains models `CoordinateSet::contains`. -/
def CoordinateSet.contains (s : CoordinateSet) (coordinates : Vec2) : Bool :=
  decide (0 ≤ coordinates.x) && decide (0 ≤ coordinates.y) &&
    decide (coordinates.x < 5) && decide (coordinates.y < 5) &&
    ((s.bits >>> CoordinateSet.index_of coordinates) &&& 1 == 1)

/-- CoordinateSet.toList models `CoordinateSetIterator`: occupied cells in
ascending bit-index order, i.e. row-major. -/
def CoordinateSet.toList (s : CoordinateSet) : List Vec2 :=
  (List.range 25).filterMap fun (i : Nat) =>
    if s.bits >>> i &&& 1 == 1 then some ⟨((i % 5 : Nat) : Int), ((i / 5 : Nat) : Int)⟩
    else none

/-- PieceShape models `PieceShape` from piece_shape.rs; derived equality
compares the name and the coordinate bitmask, like the derived `PartialEq`
of the source. -/
structure PieceShape where
  name : String
  coordinates : CoordinateSet
deriving DecidableEq

/-- PieceShape.new models `PieceShape::new`. -/
def PieceShape.new (name : String) (coordinates : List Vec2) : PieceShape :=
  ⟨name, coordinates.foldl CoordinateSet.insert ⟨0⟩⟩

/-- PieceShape.coordinate_list models the `PieceShape::coordinates`
iterator method. -/
def PieceShape.coordinate_list (s : PieceShape) : List Vec2 :=
  s.coordinates.toList

/-- PieceShape.align models `PieceShape::align`: translate so that the
componentwise minimum (seeded with (20, 20), the board size) becomes
(0, 0). -/
def PieceShape.align (coordinates : List Vec2) : List Vec2 :=
  let min_coords := coordinates.foldl Vec2.min ⟨20, 20⟩
  coordinates.map fun c => c - min_coords

/-- PieceShape.mirror models `PieceShape::mirror`. -/
def PieceShape.mirror (s : PieceShape) : PieceShape :=
  PieceShape.new s.name (PieceShape.align (s.coordinate_list.map fun c => -c))

/-- PieceShape.turn_right models `PieceShape::turn_right`. -/
def PieceShape.turn_right (s : PieceShape) : PieceShape :=
  PieceShape.new s.name (PieceShape.align (s.coordinate_list.map Vec2.turn_right))

/-- PieceShape.turn_left models `PieceShape::turn_left`. -/
def PieceShape.turn_left (s : PieceShape) : PieceShape :=
  PieceShape.new s.name (PieceShape.align (s.coordinate_list.map Vec2.turn_left))

/-- PieceShape.flip models `PieceShape::flip`. -/
def PieceShape.flip (s : PieceShape) : PieceShape :=
  PieceShape.new s.name (PieceShape.align (s.coordinate_list.map Vec2.flip))

/-- PieceShape.rotate models `PieceShape::rotate`. -/
def PieceShape.rotate (s : PieceShape) (rotation : Rotation) : PieceShape :=
  match rotation with
  | .None => s
  | .Mirror => s.mirror
  | .Right => s.turn_right
  | .Left => s.turn_left

/-- PieceShape.transform models `PieceShape::transform`. -/
def PieceShape.transform (s : PieceShape) (rotation : Rotation) (flip : Bool) : PieceShape :=
  let p := s.rotate rotation
  if flip then p.flip else p

/-- PieceShape.transformations models `PieceShape::transformations`: the
eight (rotation, flip) pairs, rotation-major, flip before no-flip. -/
def PieceShape.transformations (_ : PieceShape) : List (Rotation × Bool) :=
  ROTATIONS.flatMap fun r => [true, false].map fun f => (r, f)

/-- PieceShape.variants models `PieceShape::variants`. -/
def PieceShape.variants (s : PieceShape) : List PieceShape :=
  s.transformations.map fun rf => s.transform rf.1 rf.2

/-- PieceShape.bounding_box models `PieceShape::bounding_box` (min and max
folds are both seeded with the origin). -/
def PieceShape.bounding_box (s : PieceShape) : Vec2 :=
  let lo := s.coordinate_list.foldl Vec2.min Vec2.zero
  let hi := s.coordinate_list.foldl Vec2.max Vec2.zero
  hi - lo

/-- PIECE_SHAPES models the 21-entry catalog constant `PIECE_SHAPES`. -/
def PIECE_SHAPES : List PieceShape := [
  PieceShape.new "MONO" [⟨0, 0⟩],
  PieceShape.new "DOMINO" [⟨0, 0⟩, ⟨1, 0⟩],
  PieceShape.new "TRIO_L" [⟨0, 0⟩, ⟨0, 1⟩, ⟨1, 1⟩],
  PieceShape.new "TRIO_I" [⟨0, 0⟩, ⟨0, 1⟩, ⟨0, 2⟩],
  PieceShape.new "TETRO_O" [⟨0, 0⟩, ⟨1, 0⟩, ⟨0, 1⟩, ⟨1, 1⟩],
  PieceShape.new "TETRO_T" [⟨0, 0⟩, ⟨1, 0⟩, ⟨2, 0⟩, ⟨1, 1⟩],
  PieceShape.new "TETRO_I" [⟨0, 0⟩, ⟨0, 1⟩, ⟨0, 2⟩, ⟨0, 3⟩],
  PieceShape.new "TETRO_L" [⟨0, 0⟩, ⟨0, 1⟩, ⟨0, 2⟩, ⟨1, 2⟩],
  PieceShape.new "TETRO_Z" [⟨0, 0⟩, ⟨1, 0⟩, ⟨1, 1⟩, ⟨2, 1⟩],
  PieceShape.new "PENTO_L" [⟨0, 0⟩, ⟨0, 1⟩, ⟨0, 2⟩, ⟨0, 3⟩, ⟨1, 3⟩],
  PieceShape.new "PENTO_T" [⟨0, 0⟩, ⟨1, 0⟩, ⟨2, 0⟩, ⟨1, 1⟩, ⟨1, 2⟩],
  PieceShape.new "PENTO_V" [⟨0, 0⟩, ⟨0, 1⟩, ⟨0, 2⟩, ⟨1, 2⟩, ⟨2, 2⟩],
  PieceShape.new "PENTO_S" [⟨1, 0⟩, ⟨2, 0⟩, ⟨3, 0⟩, ⟨0, 1⟩, ⟨1, 1⟩],
  PieceShape.new "PENTO_Z" [⟨0, 0⟩, ⟨1, 0⟩, ⟨1, 1⟩, ⟨1, 2⟩, ⟨2, 2⟩],
  PieceShape.new "PENTO_I" [⟨0, 0⟩, ⟨0, 1⟩, ⟨0, 2⟩, ⟨0, 3⟩, ⟨0, 4⟩],
  PieceShape.new "PENTO_P" [⟨0, 0⟩, ⟨1, 0⟩, ⟨0, 1⟩, ⟨1, 1⟩, ⟨0, 2⟩],
  PieceShape.new "PENTO_W" [⟨0, 0⟩, ⟨0, 1⟩, ⟨1, 1⟩, ⟨1, 2⟩, ⟨2, 2⟩],
  PieceShape.new "PENTO_U" [⟨0, 0⟩, ⟨0, 1⟩, ⟨1, 1⟩, ⟨2, 1⟩, ⟨2, 0⟩],
  PieceShape.new "PENTO_R" [⟨0, 1⟩, ⟨1, 1⟩, ⟨1, 2⟩, ⟨2, 1⟩, ⟨2, 0⟩],
  PieceShape.new "PENTO_X" [⟨1, 0⟩, ⟨0, 1⟩, ⟨1, 1⟩, ⟨2, 1⟩, ⟨1, 2⟩],
  PieceShape.new "PENTO_Y" [⟨0, 1⟩, ⟨1, 0⟩, ⟨1, 1⟩, ⟨1, 2⟩, ⟨1, 3⟩]
]

/-- PIECE_SHAPES_BY_NAME models the name-indexed catalog map
`PIECE_SHAPES_BY_NAME` (only ever queried with names that are present). -/
def PIECE_SHAPES_BY_NAME (name : String) : PieceShape :=
  (PIECE_SHAPES.find? fun p => p.name == name).getD (PieceShape.new name [])

/-- BOARD_SIZE models the constant `BOARD_SIZE` from board.rs. -/
def BOARD_SIZE : Nat := 20

/-- Board models `Board` from board.rs: a list of fields (the source
stores cells as a `Vec<Field>` and scans it linearly). -/
structure Board where
  fields : List GameField
deriving DecidableEq

/-- Board.count_obstructed models `Board::count_obstructed`. -/
def Board.count_obstructed (b : Board) : Nat :=
  (b.fields.filter fun f => f.content != Color.None).length

/-- Board.is_in_bounds models `Board::is_in_bounds`. -/
def Board.is_in_bounds (coordinates : Vec2) : Bool :=
  decide (0 ≤ coordinates.x) && decide (0 ≤ coordinates.y) &&
    decide (coordinates.x < 20) && decide (coordinates.y < 20)

/-- Board.corner_position models `Board::corner_position`. -/
def Board.corner_position : Corner → Vec2
  | .TopLeft => ⟨0, 0⟩
  | .BottomLeft => ⟨0, 19⟩
  | .TopRight => ⟨19, 0⟩
  | .BottomRight => ⟨19, 19⟩

/-- Board.corner_positions models `Board::corner_positions`. -/
def Board.corner_positions : List Vec2 :=
  CORNERS.map Board.corner_position

/-- Board.align models `Board::align`: snap a bounding box of the given
size to a board corner, returning the top-left anchor. -/
def Board.align (area : Vec2) (corner : Corner) : Vec2 :=
  let position := Board.corner_position corner
  match corner with
  | .TopLeft => position
  | .TopRight => ⟨position.x - area.x, position.y⟩
  | .BottomLeft => ⟨position.x, position.y - area.y⟩
  | .BottomRight => position - area

/-- Board.is_on_corner models `Board::is_on_corner`. -/
def Board.is_on_corner (position : Vec2) : Bool :=
  Board.corner_positions.any fun p => p == position

/-- Board.get models `Board::get`: the content of the first field at the
position, defaulting to `Color.None`. -/
def Board.get (b : Board) (position : Vec2) : Color :=
  ((b.fields.find? fun f => f.position == position).map fun f => f.content).getD Color.None

/-- Board.set_fields is the recursion behind `Board::set`: update the
first field at the position, or push a new field at the end. -/
def Board.set_fields : List GameField → Vec2 → Color → List GameField
  | [], position, color => [⟨position, color⟩]
  | f :: rest, position, color =>
    if f.position == position then ⟨f.position, color⟩ :: rest
    else f :: Board.set_fields rest position color

/-- Board.set models `Board::set`. -/
def Board.set (b : Board) (position : Vec2) (color : Color) : Board :=
  ⟨Board.set_fields b.fields position color⟩

/-- Board.is_obstructed models `Board::is_obstructed`. -/
def Board.is_obstructed (b : Board) (position : Vec2) : Bool :=
  b.fields.any fun f => f.position == position && f.content != Color.None

/-- Board.borders_on_color models `Board::borders_on_color`: any of the
four edge neighbours holds the colour. -/
def Board.borders_on_color (b : Board) (position : Vec2) (color : Color) : Bool :=
  [(⟨1, 0⟩ : Vec2), ⟨0, 1⟩, ⟨-1, 0⟩, ⟨0, -1⟩].any fun o => b.get (position + o) == color

/-- Board.corners_on_color models `Board::corners_on_color`, including the
offset list of the source, which names (1,1) twice and omits (-1,-1). -/
def Board.corners_on_color (b : Board) (position : Vec2) (color : Color) : Bool :=
  [(⟨1, 1⟩ : Vec2), ⟨1, 1⟩, ⟨-1, 1⟩, ⟨1, -1⟩].any fun o => b.get (position + o) == color

/-- Piece models `Piece` from piece.rs. -/
structure Piece where
  kind : PieceShape
  rotation : Rotation
  is_flipped : Bool
  color : Color
  position : Vec2
deriving DecidableEq

/-- Piece.shape models `Piece::shape`: the transformed form of the kind. -/
def Piece.shape (piece : Piece) : PieceShape :=
  piece.kind.transform piece.rotation piece.is_flipped

/-- Piece.coordinates models `Piece::coordinates`: the occupied board
cells, in the iteration order of the transformed shape. -/
def Piece.coordinates (piece : Piece) : List Vec2 :=
  piece.shape.coordinate_list.map fun c => c + piece.position

/-- Move models `Move` from move.rs. -/
inductive Move where
  | Skip (color : Color)
  | Set (piece : Piece)
deriving DecidableEq

/-- Move.color models `Move::color`. -/
def Move.color : Move → Color
  | .Skip color => color
  | .Set piece => piece.color

/-- Board.place models `Board::place`: set every cell of the piece to its
colour, with no checks. -/
def Board.place (b : Board) (piece : Piece) : Board :=
  piece.coordinates.foldl (fun b position => b.set position piece.color) b

/-- SCError stands for the distinct error messages produced by the game
logic of game_state.rs (the source uses `SCError` wrapping a string; one
constructor here per `Err` site). -/
inductive SCError where
  | moveColorMismatch
  | notStartShape
  | pieceAlreadyPlaced
  | outOfBounds
  | obstructed
  | edgeNeighborSameColor
  | missingCornerAnchor
  | missingDiagonalTouch
  | skipInFirstMove
  | gameOver
deriving DecidableEq

/-- SCResult models `SCResult<()>` = `Result<(), SCError>`. -/
inductive SCResult where
  | ok
  | error (e : SCError)
deriving DecidableEq

/-- SCResult.isOk models `Result::is_ok`. -/
def SCResult.isOk : SCResult → Bool
  | .ok => true
  | .error _ => false

/-- GameState models `GameState` from game_state.rs. -/
structure GameState where
  turn : Nat
  round : Nat
  first : Player
  second : Player
  board : Board
  start_piece : PieceShape
  start_color : Color
  start_team : Team
  ordered_colors : List Color
  last_move_mono : Color → Option Bool
  current_color_index : Nat
  blue_shapes : List PieceShape
  yellow_shapes : List PieceShape
  red_shapes : List PieceShape
  green_shapes : List PieceShape

/-- SUM_MAX_SQUARES models the constant `SUM_MAX_SQUARES`. -/
def SUM_MAX_SQUARES : Int := 89

/-- GameState.new models `GameState::new`: a fresh state with blue to
move, team one starting, full inventories, round 1, turn 0. -/
def GameState.new (start_piece : PieceShape) : GameState :=
  { turn := 0
    round := 1
    first := ⟨Team.One, "Alice"⟩
    second := ⟨Team.Two, "Bob"⟩
    board := ⟨[]⟩
    start_piece := start_piece
    start_color := Color.Blue
    start_team := Team.One
    ordered_colors := [Color.Blue, Color.Yellow, Color.Red, Color.Green]
    last_move_mono := fun _ => none
    current_color_index := 0
    blue_shapes := PIECE_SHAPES
    yellow_shapes := PIECE_SHAPES
    red_shapes := PIECE_SHAPES
    green_shapes := PIECE_SHAPES }

/-- GameState.current_color models `GameState::current_color` (the source
indexes the colour queue and panics out of range; here out-of-range reads
give `Color.None`). -/
def GameState.current_color (s : GameState) : Color :=
  s.ordered_colors.getD s.current_color_index Color.None

/-- GameState.current_team models `GameState::current_team`. -/
def GameState.current_team (s : GameState) : Team :=
  s.current_color.team

/-- GameState.undeployed_shapes_of_color models
`GameState::undeployed_shapes_of_color` (the source panics on colour
`none`; here that reads as the empty list). -/
def GameState.undeployed_shapes_of_color (s : GameState) (color : Color) : List PieceShape :=
  match color with
  | .Red => s.red_shapes
  | .Yellow => s.yellow_shapes
  | .Green => s.green_shapes
  | .Blue => s.blue_shapes
  | .None => []

/-- GameState.set_undeployed is the write-back of
`GameState::undeployed_shapes_of_color_mut` (a no-op on colour `none`,
where the source panics). -/
def GameState.set_undeployed (s : GameState) (color : Color) (shapes : List PieceShape) : GameState :=
  match color with
  | .Red => { s with red_shapes := shapes }
  | .Yellow => { s with yellow_shapes := shapes }
  | .Green => { s with green_shapes := shapes }
  | .Blue => { s with blue_shapes := shapes }
  | .None => s

/-- GameState.get_points_from_undeployed models
`GameState::get_points_from_undeployed`. -/
def GameState.get_points_from_undeployed (undeployed : List PieceShape) (mono_last : Bool) : Int :=
  if undeployed.isEmpty then
    SUM_MAX_SQUARES + 15 + (if mono_last then 5 else 0)
  else
    SUM_MAX_SQUARES - (undeployed.map fun p => (p.coordinate_list.length : Int)).sum

/-- GameState.is_first_move models `GameState::is_first_move`: the current
colour still holds as many undeployed shapes as the full catalog. -/
def GameState.is_first_move (s : GameState) : Bool :=
  (s.undeployed_shapes_of_color s.current_color).length == PIECE_SHAPES.length

/-- GameState.validate_move_color models `GameState::validate_move_color`. -/
def GameState.validate_move_color (s : GameState) (game_move : Move) : SCResult :=
  if game_move.color != s.current_color then .error .moveColorMismatch else .ok

/-- GameState.validate_shape models `GameState::validate_shape`. -/
def GameState.validate_shape (s : GameState) (shape : PieceShape) (color : Color) : SCResult :=
  if s.is_first_move then
    if shape != s.start_piece then .error .notStartShape else .ok
  else if !(s.undeployed_shapes_of_color color).any (fun p => p == shape) then
    .error .pieceAlreadyPlaced
  else .ok

/-- GameState.validate_set_move models `GameState::validate_set_move`:
shape availability, then per-cell bounds/obstruction/edge-contact checks
in iteration order, then the corner rule (first move) or the
diagonal-contact rule (later moves). -/
def GameState.validate_set_move (s : GameState) (piece : Piece) : SCResult :=
  match s.validate_shape piece.kind piece.color with
  | .error e => .error e
  | .ok =>
    match piece.coordinates.findSome? (fun coordinates =>
        if !Board.is_in_bounds coordinates then some SCError.outOfBounds
        else if s.board.is_obstructed coordinates then some SCError.obstructed
        else if s.board.borders_on_color coordinates piece.color then some SCError.edgeNeighborSameColor
        else none) with
    | some e => .error e
    | none =>
      if s.is_first_move then
        if !piece.coordinates.any (fun p => Board.is_on_corner p) then
          .error .missingCornerAnchor
        else .ok
      else
        if !piece.coordinates.any (fun p => s.board.corners_on_color p piece.color) then
          .error .missingDiagonalTouch
        else .ok

/-- GameState.try_advance models `GameState::try_advance`: fail when the
colour queue is empty, otherwise advance the cursor modulo the queue
length, add `turns / len` to the round and `turns` to the turn. -/
def GameState.try_advance (s : GameState) (turns : Nat) : GameState × SCResult :=
  if s.ordered_colors.isEmpty then (s, .error .gameOver)
  else
    ({ s with
        current_color_index := (s.current_color_index + turns) % s.ordered_colors.length,
        round := s.round + turns / s.ordered_colors.length,
        turn := s.turn + turns }, .ok)

/-- GameState.perform_set_move models `GameState::perform_set_move`
(validation modelled active, as in the debug build): validate, place the
piece, remove the piece's transformed shape from the mover's inventory,
record the monomino flag when the inventory empties, then advance by one. -/
def GameState.perform_set_move (s : GameState) (piece : Piece) : GameState × SCResult :=
  match s.validate_set_move piece with
  | .error e => (s, .error e)
  | .ok =>
    let s1 := { s with board := s.board.place piece }
    let undeployed := (s1.undeployed_shapes_of_color piece.color).erase piece.shape
    let s2 := s1.set_undeployed piece.color undeployed
    let s3 :=
      if undeployed.isEmpty then
        { s2 with last_move_mono := fun c =>
            if c = piece.color then some (piece.kind == PIECE_SHAPES_BY_NAME "MONO")
            else s2.last_move_mono c }
      else s2
    s3.try_advance 1

/-- GameState.perform_skip_move models `GameState::perform_skip_move`. -/
def GameState.perform_skip_move (s : GameState) : GameState × SCResult :=
  if s.is_first_move then (s, .error .skipInFirstMove)
  else s.try_advance 1

/-- GameState.perform_move models `GameState::perform_move` (the move
colour check modelled active, as in the debug build). -/
def GameState.perform_move (s : GameState) (game_move : Move) : GameState × SCResult :=
  match s.validate_move_color game_move with
  | .error e => (s, .error e)
  | .ok =>
    match game_move with
    | .Set piece => s.perform_set_move piece
    | .Skip _ => s.perform_skip_move

/-- GameState.validate_skip models `GameState::validate_skip`: advancing a
clone by one must succeed. -/
def GameState.validate_skip (s : GameState) : SCResult :=
  (s.try_advance 1).2

/-- GameState.possible_usual_set_moves models
`GameState::possible_usual_set_moves`: for every undeployed shape of the
current colour, every (rotation, flip) pair and every anchor of the
inclusive rectangle from (0,0) to (19,19) minus the UNtransformed shape's
bounding box, keep the placements that validate. -/
def GameState.possible_usual_set_moves (s : GameState) : List Move :=
  (s.undeployed_shapes_of_color s.current_color).flatMap fun kind =>
    ((kind.transformations.flatMap fun rf =>
        (rangeTo (Vec2.both 19 - kind.bounding_box)).map fun position =>
          ({ kind := kind, rotation := rf.1, is_flipped := rf.2,
             color := s.current_color, position := position } : Piece)).filter fun piece =>
      (s.validate_set_move piece).isOk).map fun piece => Move.Set piece

/-- GameState.possible_first_moves models
`GameState::possible_first_moves`: for every (rotation, flip) pair of the
start piece and every board corner, the placement anchored by aligning the
transformed bounding box to the corner, kept when it validates. -/
def GameState.possible_first_moves (s : GameState) : List Move :=
  s.start_piece.transformations.flatMap fun rf =>
    ((CORNERS.map fun corner =>
        ({ kind := s.start_piece, rotation := rf.1, is_flipped := rf.2,
           color := s.current_color,
           position := Board.align ((s.start_piece.transform rf.1 rf.2).bounding_box) corner } : Piece)).filter
      fun piece => (s.validate_set_move piece).isOk).map fun piece => Move.Set piece

/-- GameState.possible_moves models `GameState::possible_moves`: the first
moves in a first-move position, otherwise the usual set moves followed by
a skip move whenever skipping validates. -/
def GameState.possible_moves (s : GameState) : List Move :=
  if s.is_first_move then
    s.possible_first_moves
  else
    s.possible_usual_set_moves ++
      (if s.validate_skip.isOk then [Move.Skip s.current_color] else [])

/-- first_moves_per_spec restates the spec's first-move enumeration in its
own words: rotation-major over the fixed rotation order none, left, right,
mirror, then flip before no-flip, then the corners in the order top-left,
top-right, bottom-left, bottom-right, each candidate anchored by aligning
the transformed start piece's bounding box to the corner, keeping exactly
the placements that validate, as Set moves of the current colour. -/
def first_moves_per_spec (s : GameState) : List Move :=
  [Rotation.None, Rotation.Left, Rotation.Right, Rotation.Mirror].flatMap fun rotation =>
    [true, false].flatMap fun flipped =>
      (([Corner.TopLeft, Corner.TopRight, Corner.BottomLeft, Corner.BottomRight].map fun corner =>
          ({ kind := s.start_piece, rotation := rotation, is_flipped := flipped,
             color := s.current_color,
             position := Board.align ((s.start_piece.transform rotation flipped).bounding_box) corner } : Piece)).filter
        fun piece => (s.validate_set_move piece).isOk).map fun piece => Move.Set piece

/-- pentoY is the catalog Y-pentomino (the start piece of the source's own
test scenario). -/
def pentoY : PieceShape := PIECE_SHAPES_BY_NAME "PENTO_Y"

/-- monoShape is the catalog monomino. -/
def monoShape : PieceShape := PIECE_SHAPES_BY_NAME "MONO"

/-- tetroI is the catalog I-tetromino. -/
def tetroI : PieceShape := PIECE_SHAPES_BY_NAME "TETRO_I"

/-- c1_state is a fresh game with PENTO_Y as start piece. -/
def c1_state : GameState := GameState.new pentoY

/-- c1_piece is a right-rotated PENTO_Y placed on the bottom-left corner:
a legal first move whose transformed shape differs from the catalog entry. -/
def c1_piece : Piece :=
  { kind := pentoY, rotation := Rotation.Right, is_flipped := false,
    color := Color.Blue, position := ⟨0, 18⟩ }

/-- c2_state is a mid-game position: blue has only TETRO_I left and one
blue field at (17, 18) provides diagonal contact near the bottom edge. -/
def c2_state : GameState :=
  { GameState.new pentoY with
      blue_shapes := [tetroI],
      board := ⟨[⟨⟨17, 18⟩, Color.Blue⟩]⟩ }

/-- c2_piece is a right-rotated TETRO_I lying along the bottom row: it
validates, its anchor lies inside the rectangle cut by the transformed
bounding box, yet the generator never enumerates it. -/
def c2_piece : Piece :=
  { kind := tetroI, rotation := Rotation.Right, is_flipped := false,
    color := Color.Blue, position := ⟨13, 19⟩ }

/-- c2w_state is a mid-game position used to exercise the rule-closure
theorem: blue has only the monomino left and one blue field at (2, 2). -/
def c2w_state : GameState :=
  { GameState.new pentoY with
      blue_shapes := [monoShape],
      board := ⟨[⟨⟨2, 2⟩, Color.Blue⟩]⟩ }

/-- c2w_piece is a monomino placement at (1, 1), diagonally touching the
blue field of c2w_state. -/
def c2w_piece : Piece :=
  { kind := monoShape, rotation := Rotation.None, is_flipped := false,
    color := Color.Blue, position := ⟨1, 1⟩ }

/-- c3_state is a position at turn 3 (end of the four-colour cycle) where
blue may skip. -/
def c3_state : GameState :=
  { GameState.new pentoY with turn := 3, blue_shapes := [monoShape] }

/-- c4_board holds a single blue field at the origin. -/
def c4_board : Board := ⟨[⟨⟨0, 0⟩, Color.Blue⟩]⟩

/-- c5_state is a fresh game with PENTO_Y as start piece. -/
def c5_state : GameState := GameState.new pentoY

/-- c10_state is a position where blue has deployed everything, so a blue
skip is legal. -/
def c10_state : GameState :=
  { GameState.new pentoY with blue_shapes := [] }

/-- move_validates expresses that a move passes the position's own
validation: `validate_set_move` for placements, `validate_skip` for
skips. -/
def move_validates (s : GameState) : Move → Prop
  | .Set piece => s.validate_set_move piece = .ok
  | .Skip _ => s.validate_skip = .ok

theorem Vec2.sub_def (a b : Vec2) : a - b = ⟨a.x - b.x, a.y - b.y⟩ := rfl

theorem SCResult.isOk_iff {r : SCResult} : r.isOk = true ↔ r = .ok := by
  cases r <;> simp [SCResult.isOk]

theorem mem_rangeTo {v t : Vec2} (hx : 0 ≤ t.x) (hy : 0 ≤ t.y) :
    v ∈ rangeTo t ↔ 0 ≤ v.x ∧ v.x ≤ t.x ∧ 0 ≤ v.y ∧ v.y ≤ t.y := by
  constructor
  · intro h
    obtain ⟨j, hj, hmem⟩ := List.mem_flatMap.mp h
    obtain ⟨i, hi, heq⟩ := List.mem_map.mp hmem
    rw [List.mem_range] at hj hi
    subst heq
    dsimp only
    refine ⟨by omega, by omega, by omega, by omega⟩
  · rintro ⟨h1, h2, h3, h4⟩
    refine List.mem_flatMap.mpr ⟨v.y.toNat, List.mem_range.mpr (by omega),
      List.mem_map.mpr ⟨v.x.toNat, List.mem_range.mpr (by omega), ?_⟩⟩
    cases v with
    | mk a b =>
      dsimp only at h1 h2 h3 h4 ⊢
      congr 1 <;> omega

theorem mem_coordinate_toList_bounds {s : CoordinateSet} {v : Vec2} (h : v ∈ s.toList) :
    0 ≤ v.x ∧ v.x ≤ 4 ∧ 0 ≤ v.y ∧ v.y ≤ 4 := by
  unfold CoordinateSet.toList at h
  obtain ⟨i, hi, hv⟩ := List.mem_filterMap.mp h
  rw [List.mem_range] at hi
  by_cases hb : (s.bits >>> i &&& 1 == 1) = true
  · rw [if_pos hb] at hv
    cases hv
    dsimp only
    refine ⟨by omega, by omega, by omega, by omega⟩
  · rw [if_neg hb] at hv
    cases hv

theorem foldl_vec2_min_zero (l : List Vec2) (h : ∀ v ∈ l, 0 ≤ v.x ∧ 0 ≤ v.y) :
    l.foldl Vec2.min Vec2.zero = Vec2.zero := by
  induction l with
  | nil => rfl
  | cons a t ih =>
    have ha := h a (List.mem_cons_self a t)
    have hmin : Vec2.min Vec2.zero a = Vec2.zero := by
      unfold Vec2.min Vec2.zero
      dsimp only
      congr 1 <;> omega
    rw [List.foldl_cons, hmin]
    exact ih fun v hv => h v (List.mem_cons_of_mem a hv)

theorem foldl_vec2_max_bounds (l : List Vec2) (init : Vec2)
    (hinit : 0 ≤ init.x ∧ init.x ≤ 4 ∧ 0 ≤ init.y ∧ init.y ≤ 4)
    (h : ∀ v ∈ l, 0 ≤ v.x ∧ v.x ≤ 4 ∧ 0 ≤ v.y ∧ v.y ≤ 4) :
    0 ≤ (l.foldl Vec2.max init).x ∧ (l.foldl Vec2.max init).x ≤ 4 ∧
      0 ≤ (l.foldl Vec2.max init).y ∧ (l.foldl Vec2.max init).y ≤ 4 := by
  induction l generalizing init with
  | nil => exact hinit
  | cons a t ih =>
    have ha := h a (List.mem_cons_self a t)
    rw [List.foldl_cons]
    refine ih (Vec2.max init a) ?_ fun v hv => h v (List.mem_cons_of_mem a hv)
    unfold Vec2.max
    dsimp only
    refine ⟨by omega, by omega, by omega, by omega⟩

theorem bounding_box_bounds (s : PieceShape) :
    0 ≤ s.bounding_box.x ∧ s.bounding_box.x ≤ 4 ∧
      0 ≤ s.bounding_box.y ∧ s.bounding_box.y ≤ 4 := by
  unfold PieceShape.bounding_box
  have hall : ∀ v ∈ s.coordinate_list, 0 ≤ v.x ∧ v.x ≤ 4 ∧ 0 ≤ v.y ∧ v.y ≤ 4 :=
    fun v hv => mem_coordinate_toList_bounds hv
  have hlo : s.coordinate_list.foldl Vec2.min Vec2.zero = Vec2.zero :=
    foldl_vec2_min_zero _ fun v hv => ⟨(hall v hv).1, (hall v hv).2.2.1⟩
  have hhi := foldl_vec2_max_bounds s.coordinate_list Vec2.zero (by unfold Vec2.zero; dsimp only; omega) hall
  obtain ⟨a1, a2, a3, a4⟩ := hhi
  dsimp only
  rw [hlo]
  unfold Vec2.zero at a1 a2 a3 a4 ⊢
  rw [Vec2.sub_def]
  dsimp only
  refine ⟨by omega, by omega, by omega, by omega⟩

theorem mem_transformations (s : PieceShape) (r : Rotation) (f : Bool) :
    (r, f) ∈ s.transformations := by
  unfold PieceShape.transformations
  cases r <;> cases f <;> decide

theorem validate_set_move_ok_shape {s : GameState} {piece : Piece}
    (h : s.validate_set_move piece = .ok) :
    s.validate_shape piece.kind piece.color = .ok := by
  unfold GameState.validate_set_move at h
  cases hv : s.validate_shape piece.kind piece.color with
  | error e => rw [hv] at h; exact absurd h (by simp)
  | ok => rfl

theorem validate_shape_ok_mem {s : GameState} {shape : PieceShape} {color : Color}
    (hf : s.is_first_move = false)
    (h : s.validate_shape shape color = .ok) :
    shape ∈ s.undeployed_shapes_of_color color := by
  unfold GameState.validate_shape at h
  rw [hf] at h
  simp only [Bool.false_eq_true, if_false] at h
  by_cases ha : ((s.undeployed_shapes_of_color color).any fun p => p == shape) = true
  · obtain ⟨p, hp, hpe⟩ := List.any_eq_true.mp ha
    rw [beq_iff_eq] at hpe
    exact hpe ▸ hp
  · rw [Bool.not_eq_true] at ha
    rw [ha] at h
    simp at h

theorem mem_possible_usual_set_moves {s : GameState} {m : Move}
    (h : m ∈ s.possible_usual_set_moves) :
    ∃ piece : Piece, m = Move.Set piece ∧
      piece.kind ∈ s.undeployed_shapes_of_color s.current_color ∧
      piece.color = s.current_color ∧
      piece.position ∈ rangeTo (Vec2.both 19 - piece.kind.bounding_box) ∧
      (s.validate_set_move piece).isOk = true := by
  unfold GameState.possible_usual_set_moves at h
  obtain ⟨kind, hkind, h2⟩ := List.mem_flatMap.mp h
  obtain ⟨piece, hfil, heq⟩ := List.mem_map.mp h2
  obtain ⟨hmem, hok⟩ := List.mem_filter.mp hfil
  obtain ⟨rf, hrf, h3⟩ := List.mem_flatMap.mp hmem
  obtain ⟨position, hpos, hpe⟩ := List.mem_map.mp h3
  subst hpe
  subst heq
  exact ⟨_, rfl, hkind, rfl, hpos, hok⟩

theorem set_undeployed_queue_frame (s : GameState) (c : Color) (l : List PieceShape) :
    (s.set_undeployed c l).ordered_colors = s.ordered_colors ∧
      (s.set_undeployed c l).round = s.round ∧
      (s.set_undeployed c l).turn = s.turn := by
  cases c <;> simp [GameState.set_undeployed]

theorem perform_set_move_ok_char {s : GameState} {piece : Piece}
    (hv : s.validate_set_move piece = .ok) :
    ∃ s3 : GameState, s.perform_set_move piece = s3.try_advance 1 ∧
      s3.ordered_colors = s.ordered_colors ∧
      s3.round = s.round ∧ s3.turn = s.turn := by
  unfold GameState.perform_set_move
  rw [hv]
  dsimp only
  refine ⟨_, rfl, ?_⟩
  constructor
  · split
    · exact (set_undeployed_queue_frame _ piece.color _).1
    · exact (set_undeployed_queue_frame _ piece.color _).1
  constructor
  · split
    · exact (set_undeployed_queue_frame _ piece.color _).2.1
    · exact (set_undeployed_queue_frame _ piece.color _).2.1
  · split
    · exact (set_undeployed_queue_frame _ piece.color _).2.2
    · exact (set_undeployed_queue_frame _ piece.color _).2.2

theorem validate_set_ok_queue_nonempty {s : GameState} {piece : Piece}
    (hc : s.validate_move_color (Move.Set piece) = .ok)
    (hv : s.validate_set_move piece = .ok) :
    s.ordered_colors ≠ [] := by
  intro hnil
  have hcur : s.current_color = Color.None := by
    simp [GameState.current_color, hnil, List.getD]
  have hpc : piece.color = Color.None := by
    unfold GameState.validate_move_color at hc
    by_cases hb : ((Move.Set piece).color != s.current_color) = true
    · rw [if_pos hb] at hc
      exact absurd hc (by simp)
    · rw [Bool.not_eq_true, bne_eq_false_iff_eq] at hb
      rw [← hcur]
      exact hb
  have hfm : s.is_first_move = false := by
    unfold GameState.is_first_move
    rw [hcur]
    show (([] : List PieceShape).length == PIECE_SHAPES.length) = false
    decide
  have hsh := validate_set_move_ok_shape hv
  unfold GameState.validate_shape at hsh
  rw [hfm, hpc] at hsh
  simp [GameState.undeployed_shapes_of_color] at hsh

theorem queue_nonempty_isEmpty_false {l : List Color} (h : l ≠ []) : l.isEmpty = false :=
  List.isEmpty_eq_false.mpr h

/-- C5: if `perform_move` returns an error, the position is left exactly
as it was — no cell of the board changes, no shape leaves any undeployed
set, and turn, round and the colour cursor are untouched. -/
theorem c5_error_leaves_state_unchanged (s : GameState) (m : Move) (e : SCError)
    (h : (s.perform_move m).2 = .error e) :
    (s.perform_move m).1 = s := by
  unfold GameState.perform_move at h ⊢
  cases hc : s.validate_move_color m with
  | error e2 => rfl
  | ok =>
    rw [hc] at h
    cases m with
    | Skip c =>
      dsimp only at h ⊢
      unfold GameState.perform_skip_move at h ⊢
      by_cases hf : s.is_first_move = true
      · rw [if_pos hf]
      · rw [Bool.not_eq_true] at hf
        rw [hf] at h ⊢
        simp only [Bool.false_eq_true, if_false] at h ⊢
        unfold GameState.try_advance at h ⊢
        by_cases he : s.ordered_colors.isEmpty = true
        · rw [if_pos he]
        · rw [Bool.not_eq_true] at he
          rw [he] at h
          simp at h
    | Set piece =>
      dsimp only at h ⊢
      cases hv : s.validate_set_move piece with
      | error e3 =>
        unfold GameState.perform_set_move at h ⊢
        rw [hv]
      | ok =>
        exfalso
        obtain ⟨s3, heq, hq, _, _⟩ := perform_set_move_ok_char hv
        rw [heq] at h
        have hnonempty := validate_set_ok_queue_nonempty hc hv
        have hfalse : s.ordered_colors.isEmpty = false :=
          queue_nonempty_isEmpty_false hnonempty
        unfold GameState.try_advance at h
        rw [hq, hfalse] at h
        simp at h

theorem perform_move_ok_char {s : GameState} {m : Move}
    (h : (s.perform_move m).2 = .ok) :
    ∃ s3 : GameState, s.perform_move m = s3.try_advance 1 ∧
      s3.ordered_colors = s.ordered_colors ∧
      s3.round = s.round ∧ s3.turn = s.turn := by
  unfold GameState.perform_move at h ⊢
  cases hc : s.validate_move_color m with
  | error e2 =>
    rw [hc] at h
    simp at h
  | ok =>
    rw [hc] at h
    cases m with
    | Skip c =>
      dsimp only at h ⊢
      unfold GameState.perform_skip_move at h ⊢
      by_cases hf : s.is_first_move = true
      · rw [if_pos hf] at h
        simp at h
      · rw [Bool.not_eq_true] at hf
        rw [hf] at h ⊢
        simp only [Bool.false_eq_true, if_false] at h ⊢
        exact ⟨s, rfl, rfl, rfl, rfl⟩
    | Set piece =>
      dsimp only at h ⊢
      cases hv : s.validate_set_move piece with
      | error e3 =>
        unfold GameState.perform_set_move at h
        rw [hv] at h
        simp at h
      | ok => exact perform_set_move_ok_char hv

/-- C3 (amended): after any successful `perform_move`, `turn` grows by
exactly one and `round` grows by `1 / len(ordered_colors)` (integer
division) — so `round` increments exactly when the colour queue has
length one, not whenever the cursor wraps. -/
theorem c3_turn_round_amended (s : GameState) (m : Move)
    (h : (s.perform_move m).2 = .ok) :
    (s.perform_move m).1.turn = s.turn + 1 ∧
    (s.perform_move m).1.round = s.round + 1 / s.ordered_colors.length ∧
    ((s.perform_move m).1.round = s.round + 1 ↔ s.ordered_colors.length = 1) := by
  obtain ⟨s3, heq, hq, hr, ht⟩ := perform_move_ok_char h
  rw [heq] at h ⊢
  unfold GameState.try_advance at h ⊢
  cases hemp : s3.ordered_colors.isEmpty with
  | true =>
    rw [List.isEmpty_eq_true] at hemp
    simp [hemp] at h
  | false =>
    simp only [Bool.false_eq_true, if_false] at h ⊢
    rw [hq, hr, ht]
    have hlen : s.ordered_colors.length ≠ 0 := by
      intro h0
      rw [List.length_eq_zero] at h0
      rw [hq] at hemp
      rw [h0] at hemp
      simp at hemp
    refine ⟨rfl, rfl, ?_⟩
    cases hn : s.ordered_colors.length with
    | zero => exact absurd hn hlen
    | succ n =>
      cases n with
      | zero => simp
      | succ k =>
        have hz : 1 / (k + 1 + 1) = 0 := Nat.div_eq_of_lt (by omega)
        rw [hz]
        omega

/-- C3 counterexample: in the fresh four-colour queue at turn 3 a legal
skip succeeds, the wrap condition `turn mod len + 1 ≥ len` holds, and yet
the round does not increment. -/
theorem c3_counterexample :
    (c3_state.perform_move (Move.Skip Color.Blue)).2 = SCResult.ok ∧
    c3_state.turn % c3_state.ordered_colors.length + 1 ≥ c3_state.ordered_colors.length ∧
    (c3_state.perform_move (Move.Skip Color.Blue)).1.round ≠ c3_state.round + 1 := by
  decide

/-- C3 witness: the amended accounting evaluated on the concrete skip of
c3_state. -/
theorem c3_turn_round_amended_witness :
    (c3_state.perform_move (Move.Skip Color.Blue)).1.turn = c3_state.turn + 1 ∧
    (c3_state.perform_move (Move.Skip Color.Blue)).1.round =
      c3_state.round + 1 / c3_state.ordered_colors.length ∧
    ((c3_state.perform_move (Move.Skip Color.Blue)).1.round = c3_state.round + 1 ↔
      c3_state.ordered_colors.length = 1) :=
  c3_turn_round_amended c3_state (Move.Skip Color.Blue) (by decide)

/-- C10: in a well-formed position (cursor in range, current colour a
real colour) whose current colour is past its first move, performing
`Skip` of the current colour succeeds and touches only `turn`, `round`
and `current_color_index`: the board, the four undeployed inventories,
the monomino record, the start data, the colour queue and both player
records are all unchanged. -/
theorem c10_skip_frame (s : GameState)
    (h1 : s.is_first_move = false)
    (h2 : s.current_color_index < s.ordered_colors.length)
    (_h3 : s.current_color ≠ Color.None) :
    (s.perform_move (Move.Skip s.current_color)).2 = SCResult.ok ∧
    (s.perform_move (Move.Skip s.current_color)).1.turn = s.turn + 1 ∧
    (s.perform_move (Move.Skip s.current_color)).1.round =
      s.round + 1 / s.ordered_colors.length ∧
    (s.perform_move (Move.Skip s.current_color)).1.current_color_index =
      (s.current_color_index + 1) % s.ordered_colors.length ∧
    (s.perform_move (Move.Skip s.current_color)).1.board = s.board ∧
    (s.perform_move (Move.Skip s.current_color)).1.blue_shapes = s.blue_shapes ∧
    (s.perform_move (Move.Skip s.current_color)).1.yellow_shapes = s.yellow_shapes ∧
    (s.perform_move (Move.Skip s.current_color)).1.red_shapes = s.red_shapes ∧
    (s.perform_move (Move.Skip s.current_color)).1.green_shapes = s.green_shapes ∧
    (s.perform_move (Move.Skip s.current_color)).1.last_move_mono = s.last_move_mono ∧
    (s.perform_move (Move.Skip s.current_color)).1.start_piece = s.start_piece ∧
    (s.perform_move (Move.Skip s.current_color)).1.start_color = s.start_color ∧
    (s.perform_move (Move.Skip s.current_color)).1.start_team = s.start_team ∧
    (s.perform_move (Move.Skip s.current_color)).1.ordered_colors = s.ordered_colors ∧
    (s.perform_move (Move.Skip s.current_color)).1.first = s.first ∧
    (s.perform_move (Move.Skip s.current_color)).1.second = s.second := by
  have hm : s.validate_move_color (Move.Skip s.current_color) = .ok := by
    unfold GameState.validate_move_color
    simp [Move.color]
  unfold GameState.perform_move
  rw [hm]
  dsimp only
  unfold GameState.perform_skip_move
  rw [h1]
  simp only [Bool.false_eq_true, if_false]
  unfold GameState.try_advance
  have hne : s.ordered_colors ≠ [] := by
    intro h0
    rw [h0] at h2
    simp at h2
  rw [queue_nonempty_isEmpty_false hne]
  simp

/-- C10 witness: the skip frame theorem evaluated on c10_state, where
blue has deployed its whole inventory. -/
theorem c10_skip_frame_witness :
    (c10_state.perform_move (Move.Skip c10_state.current_color)).2 = SCResult.ok ∧
    (c10_state.perform_move (Move.Skip c10_state.current_color)).1.turn = c10_state.turn + 1 ∧
    (c10_state.perform_move (Move.Skip c10_state.current_color)).1.round =
      c10_state.round + 1 / c10_state.ordered_colors.length ∧
    (c10_state.perform_move (Move.Skip c10_state.current_color)).1.current_color_index =
      (c10_state.current_color_index + 1) % c10_state.ordered_colors.length ∧
    (c10_state.perform_move (Move.Skip c10_state.current_color)).1.board = c10_state.board ∧
    (c10_state.perform_move (Move.Skip c10_state.current_color)).1.blue_shapes = c10_state.blue_shapes ∧
    (c10_state.perform_move (Move.Skip c10_state.current_color)).1.yellow_shapes = c10_state.yellow_shapes ∧
    (c10_state.perform_move (Move.Skip c10_state.current_color)).1.red_shapes = c10_state.red_shapes ∧
    (c10_state.perform_move (Move.Skip c10_state.current_color)).1.green_shapes = c10_state.green_shapes ∧
    (c10_state.perform_move (Move.Skip c10_state.current_color)).1.last_move_mono = c10_state.last_move_mono ∧
    (c10_state.perform_move (Move.Skip c10_state.current_color)).1.start_piece = c10_state.start_piece ∧
    (c10_state.perform_move (Move.Skip c10_state.current_color)).1.start_color = c10_state.start_color ∧
    (c10_state.perform_move (Move.Skip c10_state.current_color)).1.start_team = c10_state.start_team ∧
    (c10_state.perform_move (Move.Skip c10_state.current_color)).1.ordered_colors = c10_state.ordered_colors ∧
    (c10_state.perform_move (Move.Skip c10_state.current_color)).1.first = c10_state.first ∧
    (c10_state.perform_move (Move.Skip c10_state.current_color)).1.second = c10_state.second :=
  c10_skip_frame c10_state (by decide) (by decide) (by decide)

/-- C2 (amended): every move the generator yields passes validation; and
conversely, in a non-first-move position, every Set piece of the current
colour that validates and whose anchor lies in the inclusive rectangle
from (0,0) to (19,19) minus the bounding box of the piece's
UNTRANSFORMED kind (the box the generator actually uses) is among the
yielded moves. -/
theorem c2_rule_closure :
    (∀ (s : GameState) (m : Move), m ∈ s.possible_moves → move_validates s m) ∧
    (∀ (s : GameState) (piece : Piece),
      s.is_first_move = false →
      piece.color = s.current_color →
      s.validate_set_move piece = .ok →
      0 ≤ piece.position.x →
      piece.position.x ≤ 19 - piece.kind.bounding_box.x →
      0 ≤ piece.position.y →
      piece.position.y ≤ 19 - piece.kind.bounding_box.y →
      Move.Set piece ∈ s.possible_moves) := by
  constructor
  · intro s m hm
    unfold GameState.possible_moves at hm
    by_cases hf : s.is_first_move = true
    · rw [if_pos hf] at hm
      unfold GameState.possible_first_moves at hm
      obtain ⟨rf, hrf, h2⟩ := List.mem_flatMap.mp hm
      obtain ⟨piece, hfil, heq⟩ := List.mem_map.mp h2
      obtain ⟨hmem, hok⟩ := List.mem_filter.mp hfil
      subst heq
      exact SCResult.isOk_iff.mp hok
    · rw [Bool.not_eq_true] at hf
      rw [hf] at hm
      simp only [Bool.false_eq_true, if_false] at hm
      rcases List.mem_append.mp hm with hu | hs
      · obtain ⟨piece, heq, _, _, _, hok⟩ := mem_possible_usual_set_moves hu
        subst heq
        exact SCResult.isOk_iff.mp hok
      · by_cases hsk : s.validate_skip.isOk = true
        · rw [if_pos hsk] at hs
          rcases List.mem_singleton.mp hs
          exact SCResult.isOk_iff.mp hsk
        · rw [Bool.not_eq_true] at hsk
          rw [hsk] at hs
          simp at hs
  · intro s piece hf hcol hv hx1 hx2 hy1 hy2
    unfold GameState.possible_moves
    rw [hf]
    simp only [Bool.false_eq_true, if_false]
    apply List.mem_append_left
    unfold GameState.possible_usual_set_moves
    have hkind : piece.kind ∈ s.undeployed_shapes_of_color s.current_color := by
      rw [← hcol]
      exact validate_shape_ok_mem hf (validate_set_move_ok_shape hv)
    apply List.mem_flatMap.mpr
    refine ⟨piece.kind, hkind, ?_⟩
    apply List.mem_map.mpr
    refine ⟨piece, ?_, rfl⟩
    apply List.mem_filter.mpr
    constructor
    · apply List.mem_flatMap.mpr
      refine ⟨(piece.rotation, piece.is_flipped), mem_transformations _ _ _, ?_⟩
      apply List.mem_map.mpr
      refine ⟨piece.position, ?_, ?_⟩
      · obtain ⟨b1, b2, b3, b4⟩ := bounding_box_bounds piece.kind
        rw [mem_rangeTo]
        · refine ⟨hx1, ?_, hy1, ?_⟩
          · rw [Vec2.sub_def]
            show piece.position.x ≤ (Vec2.both 19).x - piece.kind.bounding_box.x
            unfold Vec2.both
            dsimp only
            omega
          · rw [Vec2.sub_def]
            show piece.position.y ≤ (Vec2.both 19).y - piece.kind.bounding_box.y
            unfold Vec2.both
            dsimp only
            omega
        · rw [Vec2.sub_def]
          show 0 ≤ (Vec2.both 19).x - piece.kind.bounding_box.x
          unfold Vec2.both
          dsimp only
          omega
        · rw [Vec2.sub_def]
          show 0 ≤ (Vec2.both 19).y - piece.kind.bounding_box.y
          unfold Vec2.both
          dsimp only
          omega
      · rw [← hcol]
    · exact SCResult.isOk_iff.mpr hv

/-- C2 counterexample: in c2_state the right-rotated TETRO_I along the
bottom row validates and its anchor (13, 19) lies inside the rectangle
cut by the TRANSFORMED bounding box (3, 0), yet `possible_moves` does not
contain it — the generator cuts the rectangle with the untransformed
bounding box (0, 3) and never tries anchors with y > 16. -/
theorem c2_counterexample :
    c2_state.is_first_move = false ∧
    c2_piece.color = c2_state.current_color ∧
    c2_state.validate_set_move c2_piece = SCResult.ok ∧
    0 ≤ c2_piece.position.x ∧
    c2_piece.position.x ≤
      19 - (c2_piece.kind.transform c2_piece.rotation c2_piece.is_flipped).bounding_box.x ∧
    0 ≤ c2_piece.position.y ∧
    c2_piece.position.y ≤
      19 - (c2_piece.kind.transform c2_piece.rotation c2_piece.is_flipped).bounding_box.y ∧
    Move.Set c2_piece ∉ c2_state.possible_moves := by
  refine ⟨by decide, by decide, by decide, by decide, by decide, by decide, by decide, ?_⟩
  intro hmem
  unfold GameState.possible_moves at hmem
  have hf : c2_state.is_first_move = false := by decide
  rw [hf] at hmem
  simp only [Bool.false_eq_true, if_false] at hmem
  rcases List.mem_append.mp hmem with hu | hs
  · obtain ⟨piece, heq, hkind, _, hpos, _⟩ := mem_possible_usual_set_moves hu
    injection heq with h
    subst h
    have hb := (mem_rangeTo (t := Vec2.both 19 - c2_piece.kind.bounding_box)
      (by decide) (by decide)).mp hpos
    exact absurd hb (by decide)
  · by_cases hsk : c2_state.validate_skip.isOk = true
    · rw [if_pos hsk] at hs
      exact Move.noConfusion (List.mem_singleton.mp hs)
    · rw [Bool.not_eq_true] at hsk
      rw [hsk] at hs
      simp at hs

/-- C2 witness: rule closure evaluated at c2w_state — the monomino at
(1, 1) satisfies the completeness hypotheses, so it is generated, and the
generated move validates. -/
theorem c2_rule_closure_witness :
    Move.Set c2w_piece ∈ c2w_state.possible_moves ∧
    move_validates c2w_state (Move.Set c2w_piece) := by
  have hmem := c2_rule_closure.2 c2w_state c2w_piece (by decide) (by decide) (by decide)
    (by decide) (by decide) (by decide) (by decide)
  exact ⟨hmem, c2_rule_closure.1 c2w_state (Move.Set c2w_piece) hmem⟩

/-- C8: in a first-move position, `possible_moves` is exactly the
spec-ordered enumeration of corner-aligned placements of the start piece
(rotations none, left, right, mirror; flip before no-flip; corners
top-left, top-right, bottom-left, bottom-right; anchored with
`Board.align` on the transformed bounding box; filtered by validation) —
in particular only Set moves of the start piece and no Skip. -/
theorem c8_first_move_enumeration (s : GameState) (h : s.is_first_move = true) :
    s.possible_moves = first_moves_per_spec s := by
  unfold GameState.possible_moves
  rw [h]
  simp only [if_true]
  unfold GameState.possible_first_moves first_moves_per_spec PieceShape.transformations
    ROTATIONS CORNERS
  simp [List.flatMap_cons, List.flatMap_nil]

/-- C8 witness: the enumeration equality evaluated on a fresh game with
PENTO_Y as start piece. -/
theorem c8_first_move_enumeration_witness :
    (GameState.new pentoY).possible_moves = first_moves_per_spec (GameState.new pentoY) :=
  c8_first_move_enumeration (GameState.new pentoY) (by decide)

/-- C5 witness: a skip attempted on a first move fails and leaves the
fresh position untouched. -/
theorem c5_error_leaves_state_unchanged_witness :
    (c5_state.perform_move (Move.Skip Color.Blue)).2 = SCResult.error SCError.skipInFirstMove ∧
    (c5_state.perform_move (Move.Skip Color.Blue)).1 = c5_state :=
  ⟨by decide, c5_error_leaves_state_unchanged c5_state (Move.Skip Color.Blue)
    SCError.skipInFirstMove (by decide)⟩

/-- C1 (code evaluated at the failing input): the right-rotated PENTO_Y
placed on the bottom-left corner is accepted as a first move, yet blue's
undeployed inventory afterwards still equals the full 21-shape catalog —
`perform_set_move` removes `piece.shape()` (the transformed shape), which
is not an element of the inventory, so nothing is removed and the
inventory does not shrink. -/
theorem c1_rotated_set_move_removes_nothing :
    (c1_state.perform_move (Move.Set c1_piece)).2 = SCResult.ok ∧
    (c1_state.perform_move (Move.Set c1_piece)).1.blue_shapes = PIECE_SHAPES := by
  decide

/-- C4 (code evaluated at the failing input): with a single blue field at
(0, 0), the diagonal query at (1, 1) returns false although the diagonal
neighbour (1,1) + (-1,-1) = (0,0) is blue — the source's offset list
duplicates (1, 1) and omits (-1, -1). -/
theorem c4_corners_on_color_misses_up_left :
    c4_board.corners_on_color ⟨1, 1⟩ Color.Blue = false ∧
    c4_board.get (⟨1, 1⟩ + ⟨-1, -1⟩) = Color.Blue := by
  decide

/-- C6 (amended): two shape values are equal iff BOTH their names and
their coordinate sets match (the derived structural equality of the
source); name equality alone is not sufficient. -/
theorem c6_shape_equality_amended (s t : PieceShape) :
    s = t ↔ s.name = t.name ∧ s.coordinates = t.coordinates := by
  constructor
  · rintro rfl
    exact ⟨rfl, rfl⟩
  · rintro ⟨h1, h2⟩
    cases s
    cases t
    dsimp only at h1 h2
    rw [h1, h2]

/-- C6 counterexample: the right-rotated PENTO_Y keeps the catalog name
but compares unequal to the catalog entry, refuting name-only equality. -/
theorem c6_counterexample :
    pentoY.turn_right.name = pentoY.name ∧ pentoY.turn_right ≠ pentoY := by
  decide

/-- C7: for every catalog shape, transforming with (none, no-flip) is the
identity, four right turns are the identity, two flips are the identity,
and the variants list has at most 8 entries. -/
theorem c7_transform_laws :
    ∀ S ∈ PIECE_SHAPES,
      S.transform Rotation.None false = S ∧
      S.turn_right.turn_right.turn_right.turn_right = S ∧
      S.flip.flip = S ∧
      S.variants.length ≤ 8 := by
  decide

/-- C7 witness: the transform laws evaluated on the monomino. -/
theorem c7_transform_laws_witness :
    monoShape ∈ PIECE_SHAPES ∧
    (monoShape.transform Rotation.None false = monoShape ∧
      monoShape.turn_right.turn_right.turn_right.turn_right = monoShape ∧
      monoShape.flip.flip = monoShape ∧
      monoShape.variants.length ≤ 8) :=
  ⟨by decide, c7_transform_laws monoShape (by decide)⟩

/-- C9: the scoring helper returns 109 for an empty inventory with the
monomino bonus, 104 without it, 89 minus the total cell count for a
non-empty inventory, and 0 for the full catalog. -/
theorem c9_points_from_undeployed :
    GameState.get_points_from_undeployed [] true = 109 ∧
    GameState.get_points_from_undeployed [] false = 104 ∧
    (∀ (undeployed : List PieceShape) (mono_last : Bool), undeployed ≠ [] →
      GameState.get_points_from_undeployed undeployed mono_last =
        89 - ((undeployed.map fun p => (p.coordinate_list.length : Int)).sum)) ∧
    GameState.get_points_from_undeployed PIECE_SHAPES false = 0 := by
  refine ⟨by decide, by decide, ?_, by decide⟩
  intro undeployed mono_last h
  unfold GameState.get_points_from_undeployed
  have hne : undeployed.isEmpty = false := List.isEmpty_eq_false.mpr h
  rw [hne]
  simp only [Bool.false_eq_true, if_false]
  rfl

/-- C9 witness: the non-empty branch evaluated on a singleton inventory. -/
theorem c9_points_from_undeployed_witness :
    ([monoShape] : List PieceShape) ≠ [] ∧
    GameState.get_points_from_undeployed [monoShape] false =
      89 - (([monoShape] : List PieceShape).map fun p => (p.coordinate_list.length : Int)).sum :=
  ⟨by decide, c9_points_from_undeployed.2.2.1 [monoShape] false (by decide)⟩
